import Mathlib

/-!
Verification of the signer HTTP client
(`manta-pay/src/signer/client/http.rs`) against its specification.

The client is embedded shallowly: the Rust `panic!` raised by
`expect` in `wrap_request` becomes the `Fault` error layer, the
underlying HTTP transport (`KnownUrlClient::post`) becomes an oracle
function supplied to each operation, and every operation additionally
returns the list of transport calls it performed, so that claims about
"exactly one outbound call" or "zero outbound calls" are statable.
Domain payload types, the `Network` selector and the `Message` envelope
live outside the sources under verification and are modelled from the
specification as opaque payloads.
-/

namespace MantaSigner

/-- Modelled from the spec: the network selector identifiers
(`signer/client/network.rs` is not among the sources); the spec names
the selectors "TestNet" and "MainNet". -/
inductive Network where
  | TestNet : Network
  | MainNet : Network
deriving DecidableEq, Repr

/-- Modelled from the spec: the envelope (`Message` in
`signer/client/network.rs`, not among the sources) pairs exactly one
request value with exactly one network selector. -/
structure Message (T : Type) where
  network : Network
  message : T
deriving DecidableEq, Repr

/-- Modelled from the spec: the transport error of the underlying HTTP
layer (`reqwest::Error`, re-exported as `Error`), opaque to this core. -/
structure Error where
  msg : String
deriving DecidableEq, Repr

/-- Fatal fault raised by the client itself (a Rust panic), as opposed
to a propagated transport error; `missingNetwork` carries the panic
message of `wrap_request`. -/
inductive Fault where
  | missingNetwork : String → Fault
deriving DecidableEq, Repr

/-- Modelled from the spec: opaque sync request payload. -/
structure SyncRequest where
  data : Nat
deriving DecidableEq, Repr

/-- Modelled from the spec: opaque sync response payload. -/
structure SyncResponse where
  data : Nat
deriving DecidableEq, Repr

/-- Modelled from the spec: opaque application-level sync error. -/
structure SyncError where
  data : Nat
deriving DecidableEq, Repr

/-- Modelled from the spec: opaque initial-sync request payload. -/
structure InitialSyncRequest where
  data : Nat
deriving DecidableEq, Repr

/-- Modelled from the spec: opaque sign request payload. -/
structure SignRequest where
  data : Nat
deriving DecidableEq, Repr

/-- Modelled from the spec: opaque sign response payload. -/
structure SignResponse where
  data : Nat
deriving DecidableEq, Repr

/-- Modelled from the spec: opaque application-level sign error. -/
structure SignError where
  data : Nat
deriving DecidableEq, Repr

/-- Modelled from the spec: opaque transaction-data request payload. -/
structure TransactionDataRequest where
  data : Nat
deriving DecidableEq, Repr

/-- Modelled from the spec: opaque transaction-data response payload. -/
structure TransactionDataResponse where
  data : Nat
deriving DecidableEq, Repr

/-- Modelled from the spec: opaque identity request payload. -/
structure IdentityRequest where
  data : Nat
deriving DecidableEq, Repr

/-- Modelled from the spec: opaque identity response payload. -/
structure IdentityResponse where
  data : Nat
deriving DecidableEq, Repr

/-- Modelled from the spec: opaque address payload. -/
structure Address where
  data : Nat
deriving DecidableEq, Repr

/-- Modelled from the spec: opaque transfer parameter bundle. -/
structure Parameters where
  data : Nat
deriving DecidableEq, Repr

/-- Modelled from the spec: opaque combined sign-and-transaction-data
response payload. -/
structure SignWithTransactionDataResponse where
  data : Nat
deriving DecidableEq, Repr

/-- The no-payload "get" marker (`GetRequest::Get`). -/
inductive GetRequest where
  | Get : GetRequest
deriving DecidableEq, Repr

/-- Combined sign-and-transaction-data result: success or embedded
application-level sign error. -/
abbrev SignWithTransactionDataResult :=
  Except SignError SignWithTransactionDataResponse

/-- Sync outcome on transport success: sync response or embedded
application-level sync error (`Result<SyncResponse, SyncError>`). -/
abbrev SyncResult := Except SyncError SyncResponse

/-- Sign outcome on transport success: sign response or embedded
application-level sign error (`Result<SignResponse, SignError>`). -/
abbrev SignResult := Except SignError SignResponse

/-- Modelled from the spec: the transport handle of `manta-util`
(`KnownUrlClient`), bound to one base address. -/
structure KnownUrlClient where
  serverUrl : String
deriving DecidableEq, Repr

/-- Modelled from the spec: well-formedness of a base address, the
condition under which `KnownUrlClient::new` (from `manta-util`, not
among the sources) succeeds. -/
def urlWellFormed (serverUrl : String) : Bool :=
  List.isPrefixOf "http://".data serverUrl.data ||
  List.isPrefixOf "https://".data serverUrl.data

/-- Modelled from the spec: `KnownUrlClient::new` parses the base
address, failing with a construction error on a malformed address,
with no network activity. -/
def KnownUrlClient.new (serverUrl : String) : Except Error KnownUrlClient :=
  if urlWellFormed serverUrl then .ok ⟨serverUrl⟩
  else .error ⟨"builder error: malformed url"⟩

/-- The body handed to the transport: either the network envelope the
client constructs, or a bare unwrapped request (the transport accepts
any serializable body; which of the two the client submits is exactly
what the claims about wrapping are about). -/
inductive Body (T : Type) where
  | enveloped : Message T → Body T
  | bare : T → Body T
deriving DecidableEq, Repr

/-- One outbound transport call: the path POSTed to and the body
submitted. -/
structure TransportCall (T : Type) where
  path : String
  body : Body T
deriving DecidableEq, Repr

/-- The transport oracle: what the remote end answers for a POST of a
given body to a given path (`KnownUrlClient::post`). -/
def Transport (T R : Type) := String → Body T → Except Error R

/-- Result of running one client operation: the transport calls it made,
and either a fatal client fault or the (transport-level) result. -/
structure RunResult (T R : Type) where
  calls : List (TransportCall T)
  result : Except Fault (Except Error R)

/-- HTTP Signer Client: base transport handle plus optional network
selector (`struct Client` in `http.rs`). -/
structure Client where
  base : KnownUrlClient
  network : Option Network
deriving DecidableEq, Repr

/-- `Client::new`: builds a client connected to `server_url`, with no
network selector set (translated from `http.rs` lines 54-62; the inner
`KnownUrlClient::new` is spec-modelled). -/
def Client.new (serverUrl : String) : Except Error Client :=
  match KnownUrlClient.new serverUrl with
  | .ok base => .ok ⟨base, none⟩
  | .error e => .error e

/-- `Client::set_network`: sets the network used to wrap requests,
returning `()` (translated from `http.rs` lines 66-68; `&mut self`
becomes explicit state passing). -/
def Client.set_network (c : Client) (network : Option Network) :
    Unit × Client :=
  ((), { c with network := network })

/-- `Client::wrap_request`: wraps the outgoing request with the current
network; the `expect` panic on a missing network is the `Fault` layer
(translated from `http.rs` lines 72-79). -/
def Client.wrap_request {T : Type} (c : Client) (request : T) :
    Except Fault (Message T) :=
  match c.network with
  | some n => .ok ⟨n, request⟩
  | none => .error (.missingNetwork "Unable to wrap request, missing network.")

/-- `Client::post_request`: wraps `request` and POSTs it to the path
`command`; on the missing-network fault it aborts with zero transport
calls (translated from `http.rs` lines 83-89). -/
def Client.post_request {T R : Type} (c : Client) (transport : Transport T R)
    (command : String) (request : T) : RunResult T R :=
  match c.wrap_request request with
  | .error f => ⟨[], .error f⟩
  | .ok m => ⟨[⟨command, .enveloped m⟩], .ok (transport command (.enveloped m))⟩

/-- Connection operation `sync` (translated from `http.rs` lines
98-103); the unchanged client is returned explicitly. -/
def Client.sync (c : Client) (transport : Transport SyncRequest SyncResult)
    (request : SyncRequest) : RunResult SyncRequest SyncResult × Client :=
  (c.post_request transport "sync" request, c)

/-- Connection operation `sbt_sync` (translated from `http.rs` lines
106-111). -/
def Client.sbt_sync (c : Client) (transport : Transport SyncRequest SyncResult)
    (request : SyncRequest) : RunResult SyncRequest SyncResult × Client :=
  (c.post_request transport "sbt_sync" request, c)

/-- Connection operation `initial_sync` (translated from `http.rs`
lines 114-119). -/
def Client.initial_sync (c : Client)
    (transport : Transport InitialSyncRequest SyncResult)
    (request : InitialSyncRequest) :
    RunResult InitialSyncRequest SyncResult × Client :=
  (c.post_request transport "initial_sync" request, c)

/-- Connection operation `sign` (translated from `http.rs` lines
122-127). -/
def Client.sign (c : Client) (transport : Transport SignRequest SignResult)
    (request : SignRequest) : RunResult SignRequest SignResult × Client :=
  (c.post_request transport "sign" request, c)

/-- Connection operation `address`: posts the no-payload get marker
(translated from `http.rs` lines 130-132). -/
def Client.address (c : Client)
    (transport : Transport GetRequest (Option Address)) :
    RunResult GetRequest (Option Address) × Client :=
  (c.post_request transport "address" GetRequest.Get, c)

/-- Connection operation `transaction_data` (translated from `http.rs`
lines 135-140). -/
def Client.transaction_data (c : Client)
    (transport : Transport TransactionDataRequest TransactionDataResponse)
    (request : TransactionDataRequest) :
    RunResult TransactionDataRequest TransactionDataResponse × Client :=
  (c.post_request transport "transaction_data" request, c)

/-- Connection operation `identity_proof`: posts to path "identity"
(translated from `http.rs` lines 143-148). -/
def Client.identity_proof (c : Client)
    (transport : Transport IdentityRequest IdentityResponse)
    (request : IdentityRequest) :
    RunResult IdentityRequest IdentityResponse × Client :=
  (c.post_request transport "identity" request, c)

/-- Connection operation `sign_with_transaction_data` (translated from
`http.rs` lines 151-156). -/
def Client.sign_with_transaction_data (c : Client)
    (transport : Transport SignRequest SignWithTransactionDataResult)
    (request : SignRequest) :
    RunResult SignRequest SignWithTransactionDataResult × Client :=
  (c.post_request transport "sign_with_transaction_data" request, c)

/-- Connection operation `transfer_parameters`: posts the no-payload get
marker (translated from `http.rs` lines 159-161). -/
def Client.transfer_parameters (c : Client)
    (transport : Transport GetRequest Parameters) :
    RunResult GetRequest Parameters × Client :=
  (c.post_request transport "transfer_parameters" GetRequest.Get, c)

end MantaSigner

namespace MantaSigner

/-! Concrete fixtures used by witnesses and counterexamples. -/

/-- Client bound to a well-formed base address with the MainNet selector
set. -/
def clientMain : Client := ⟨⟨"https://signer.example"⟩, some Network.MainNet⟩

/-- Client bound to a well-formed base address with no selector set. -/
def clientNoNet : Client := ⟨⟨"https://signer.example"⟩, none⟩

/-- Transport answering every sync call with a successful sync
response. -/
def tSyncOk : Transport SyncRequest SyncResult :=
  fun _ _ => Except.ok (Except.ok ⟨2⟩)

/-- Transport answering every initial-sync call with a successful sync
response. -/
def tInitOk : Transport InitialSyncRequest SyncResult :=
  fun _ _ => Except.ok (Except.ok ⟨2⟩)

/-- Transport answering every sign call with a successful sign
response. -/
def tSignOk : Transport SignRequest SignResult :=
  fun _ _ => Except.ok (Except.ok ⟨2⟩)

/-- Transport answering every address call with a configured address. -/
def tAddrOk : Transport GetRequest (Option Address) :=
  fun _ _ => Except.ok (some ⟨3⟩)

/-- Transport answering every transaction-data call successfully. -/
def tTxdOk : Transport TransactionDataRequest TransactionDataResponse :=
  fun _ _ => Except.ok ⟨4⟩

/-- Transport answering every identity call successfully. -/
def tIdentOk : Transport IdentityRequest IdentityResponse :=
  fun _ _ => Except.ok ⟨5⟩

/-- Transport answering every combined sign call successfully. -/
def tSwtdOk : Transport SignRequest SignWithTransactionDataResult :=
  fun _ _ => Except.ok (Except.ok ⟨6⟩)

/-- Transport answering every transfer-parameters call with a parameter
bundle. -/
def tParamsOk : Transport GetRequest Parameters :=
  fun _ _ => Except.ok ⟨7⟩

/-- Transport returning a well-formed reply that embeds an
application-level sync error. -/
def tSyncDomErr : Transport SyncRequest SyncResult :=
  fun _ _ => Except.ok (Except.error ⟨9⟩)

/-- Transport returning a well-formed reply that embeds an
application-level sync error, for initial sync. -/
def tInitDomErr : Transport InitialSyncRequest SyncResult :=
  fun _ _ => Except.ok (Except.error ⟨9⟩)

/-- Transport returning a well-formed reply that embeds an
application-level sign error. -/
def tSignDomErr : Transport SignRequest SignResult :=
  fun _ _ => Except.ok (Except.error ⟨9⟩)

/-- Transport returning a well-formed reply that embeds an
application-level sign error, for the combined sign call. -/
def tSwtdDomErr : Transport SignRequest SignWithTransactionDataResult :=
  fun _ _ => Except.ok (Except.error ⟨9⟩)

/-- Transport failing every call with a transport-layer error. -/
def tFail (T R : Type) : Transport T R :=
  fun _ _ => Except.error ⟨"connection refused"⟩

end MantaSigner

namespace MantaSigner

/-- Helper: with a selector set, `post_request` makes exactly one call,
to the given path, with the enveloped request, and returns the
transport answer unchanged. -/
theorem post_request_some {T R : Type} (c : Client) (S : Network)
    (h : c.network = some S) (t : Transport T R) (command : String) (r : T) :
    c.post_request t command r =
      ⟨[⟨command, .enveloped ⟨S, r⟩⟩],
        .ok (t command (.enveloped ⟨S, r⟩))⟩ := by
  obtain ⟨b, net⟩ := c
  change net = some S at h
  subst h
  rfl

/-- Helper: with no selector set, `post_request` makes zero calls and
aborts with the missing-network fault. -/
theorem post_request_none {T R : Type} (c : Client) (h : c.network = none)
    (t : Transport T R) (command : String) (r : T) :
    c.post_request t command r =
      ⟨[], .error (.missingNetwork
        "Unable to wrap request, missing network.")⟩ := by
  obtain ⟨b, net⟩ := c
  change net = none at h
  subst h
  rfl

/-- C1 counterexample: with the MainNet selector configured, the body
submitted by `transfer_parameters` (and by `address`) is the network
envelope pairing the get marker with the selector, not the bare get
marker, refuting the claim that the two no-payload get operations send
their bodies without the envelope. -/
theorem C1_counterexample :
    (clientMain.transfer_parameters tParamsOk).1.calls =
      [⟨"transfer_parameters",
        .enveloped ⟨Network.MainNet, GetRequest.Get⟩⟩] ∧
    (clientMain.address tAddrOk).1.calls =
      [⟨"address", .enveloped ⟨Network.MainNet, GetRequest.Get⟩⟩] ∧
    Body.enveloped (⟨Network.MainNet, GetRequest.Get⟩ : Message GetRequest) ≠
      Body.bare GetRequest.Get := by
  refine ⟨rfl, rfl, ?_⟩
  decide

/-- C1 (amended): for every configured selector, `address` and
`transfer_parameters` submit the get marker wrapped in the network
envelope with that selector, exactly like every other command. -/
theorem C1_get_ops_wrapped (c : Client) (S : Network)
    (h : c.network = some S) (tA : Transport GetRequest (Option Address))
    (tP : Transport GetRequest Parameters) :
    (c.address tA).1.calls = [⟨"address", .enveloped ⟨S, GetRequest.Get⟩⟩] ∧
    (c.transfer_parameters tP).1.calls =
      [⟨"transfer_parameters", .enveloped ⟨S, GetRequest.Get⟩⟩] := by
  obtain ⟨b, net⟩ := c
  change net = some S at h
  subst h
  exact ⟨rfl, rfl⟩

/-- Witness for C1: the amended claim at the concrete MainNet client. -/
theorem C1_get_ops_wrapped_witness :
    clientMain.network = some Network.MainNet ∧
    (clientMain.address tAddrOk).1.calls =
      [⟨"address", .enveloped ⟨Network.MainNet, GetRequest.Get⟩⟩] ∧
    (clientMain.transfer_parameters tParamsOk).1.calls =
      [⟨"transfer_parameters",
        .enveloped ⟨Network.MainNet, GetRequest.Get⟩⟩] :=
  ⟨rfl, C1_get_ops_wrapped clientMain Network.MainNet rfl tAddrOk tParamsOk⟩

/-- C2: with no selector set, any request posted through the client
aborts with the missing-network fault and zero outbound transport
calls, never sending an unwrapped or default-tagged body; in
particular `sign` aborts this way. -/
theorem C2_missing_network_aborts {T R : Type} (c : Client)
    (h : c.network = none) (t : Transport T R) (command : String) (r : T)
    (tS : Transport SignRequest SignResult) (rS : SignRequest) :
    (c.post_request t command r).calls = [] ∧
    (c.post_request t command r).result =
      .error (.missingNetwork "Unable to wrap request, missing network.") ∧
    (c.sign tS rS).1.calls = [] ∧
    (c.sign tS rS).1.result =
      .error (.missingNetwork "Unable to wrap request, missing network.") := by
  obtain ⟨b, net⟩ := c
  change net = none at h
  subst h
  exact ⟨rfl, rfl, rfl, rfl⟩

/-- Witness for C2: the selector-less client aborting a `sign` call. -/
theorem C2_missing_network_aborts_witness :
    clientNoNet.network = none ∧
    (clientNoNet.sign tSignOk ⟨1⟩).1.calls = [] ∧
    (clientNoNet.sign tSignOk ⟨1⟩).1.result =
      .error (.missingNetwork "Unable to wrap request, missing network.") :=
  ⟨rfl,
    (C2_missing_network_aborts clientNoNet rfl tSignOk "sign" ⟨1⟩
      tSignOk ⟨1⟩).2.2.1,
    (C2_missing_network_aborts clientNoNet rfl tSignOk "sign" ⟨1⟩
      tSignOk ⟨1⟩).2.2.2⟩

/-- C3: with a selector set, every one of the nine operations issues
exactly one outbound POST, to the path literal equal to its
table-assigned command name, and the submitted body carries the
original request unchanged inside the envelope (so it decodes back to
the request). -/
theorem C3_command_dispatch (c : Client) (S : Network)
    (h : c.network = some S)
    (t1 : Transport SyncRequest SyncResult) (r1 : SyncRequest)
    (t2 : Transport SyncRequest SyncResult) (r2 : SyncRequest)
    (t3 : Transport InitialSyncRequest SyncResult) (r3 : InitialSyncRequest)
    (t4 : Transport SignRequest SignResult) (r4 : SignRequest)
    (t5 : Transport GetRequest (Option Address))
    (t6 : Transport TransactionDataRequest TransactionDataResponse)
    (r6 : TransactionDataRequest)
    (t7 : Transport IdentityRequest IdentityResponse) (r7 : IdentityRequest)
    (t8 : Transport SignRequest SignWithTransactionDataResult)
    (r8 : SignRequest)
    (t9 : Transport GetRequest Parameters) :
    (c.sync t1 r1).1.calls = [⟨"sync", .enveloped ⟨S, r1⟩⟩] ∧
    (c.sbt_sync t2 r2).1.calls = [⟨"sbt_sync", .enveloped ⟨S, r2⟩⟩] ∧
    (c.initial_sync t3 r3).1.calls =
      [⟨"initial_sync", .enveloped ⟨S, r3⟩⟩] ∧
    (c.sign t4 r4).1.calls = [⟨"sign", .enveloped ⟨S, r4⟩⟩] ∧
    (c.address t5).1.calls = [⟨"address", .enveloped ⟨S, GetRequest.Get⟩⟩] ∧
    (c.transaction_data t6 r6).1.calls =
      [⟨"transaction_data", .enveloped ⟨S, r6⟩⟩] ∧
    (c.identity_proof t7 r7).1.calls =
      [⟨"identity", .enveloped ⟨S, r7⟩⟩] ∧
    (c.sign_with_transaction_data t8 r8).1.calls =
      [⟨"sign_with_transaction_data", .enveloped ⟨S, r8⟩⟩] ∧
    (c.transfer_parameters t9).1.calls =
      [⟨"transfer_parameters", .enveloped ⟨S, GetRequest.Get⟩⟩] := by
  obtain ⟨b, net⟩ := c
  change net = some S at h
  subst h
  exact ⟨rfl, rfl, rfl, rfl, rfl, rfl, rfl, rfl, rfl⟩

/-- Witness for C3: the dispatch table at the concrete MainNet client,
shown on the `sync` and `identity` rows. -/
theorem C3_command_dispatch_witness :
    clientMain.network = some Network.MainNet ∧
    (clientMain.sync tSyncOk ⟨1⟩).1.calls =
      [⟨"sync", .enveloped ⟨Network.MainNet, ⟨1⟩⟩⟩] ∧
    (clientMain.identity_proof tIdentOk ⟨1⟩).1.calls =
      [⟨"identity", .enveloped ⟨Network.MainNet, ⟨1⟩⟩⟩] :=
  ⟨rfl,
    (C3_command_dispatch clientMain Network.MainNet rfl tSyncOk ⟨1⟩ tSyncOk ⟨1⟩
      tInitOk ⟨1⟩ tSignOk ⟨1⟩ tAddrOk tTxdOk ⟨1⟩ tIdentOk ⟨1⟩
      tSwtdOk ⟨1⟩ tParamsOk).1,
    (C3_command_dispatch clientMain Network.MainNet rfl tSyncOk ⟨1⟩ tSyncOk ⟨1⟩
      tInitOk ⟨1⟩ tSignOk ⟨1⟩ tAddrOk tTxdOk ⟨1⟩ tIdentOk ⟨1⟩
      tSwtdOk ⟨1⟩ tParamsOk).2.2.2.2.2.2.1⟩

/-- C4: with selector S configured, wrapping any request produces the
envelope whose selector is S and whose payload is the request
unchanged; wrapping is pure value construction on an immutable view of
the client. -/
theorem C4_wrap_envelope {T : Type} (c : Client) (S : Network)
    (h : c.network = some S) (r : T) :
    c.wrap_request r = .ok ⟨S, r⟩ := by
  obtain ⟨b, net⟩ := c
  change net = some S at h
  subst h
  rfl

/-- Witness for C4: wrapping a concrete sign request on the MainNet
client. -/
theorem C4_wrap_envelope_witness :
    clientMain.network = some Network.MainNet ∧
    clientMain.wrap_request (⟨1⟩ : SignRequest) =
      .ok ⟨Network.MainNet, ⟨1⟩⟩ :=
  ⟨rfl, C4_wrap_envelope clientMain Network.MainNet rfl (⟨1⟩ : SignRequest)⟩

/-- C5: for the five operations with embedded domain errors, a
well-formed reply reporting an application-level sync or sign error
reaches the caller as the success variant of the transport-level
result wrapping the embedded failure, never as the transport-error
variant. -/
theorem C5_domain_error_channel (c : Client) (S : Network)
    (h : c.network = some S)
    (t1 : Transport SyncRequest SyncResult) (r1 : SyncRequest)
    (e1 : SyncError)
    (h1 : t1 "sync" (.enveloped ⟨S, r1⟩) = .ok (.error e1))
    (t2 : Transport SyncRequest SyncResult) (r2 : SyncRequest)
    (e2 : SyncError)
    (h2 : t2 "sbt_sync" (.enveloped ⟨S, r2⟩) = .ok (.error e2))
    (t3 : Transport InitialSyncRequest SyncResult) (r3 : InitialSyncRequest)
    (e3 : SyncError)
    (h3 : t3 "initial_sync" (.enveloped ⟨S, r3⟩) = .ok (.error e3))
    (t4 : Transport SignRequest SignResult) (r4 : SignRequest)
    (e4 : SignError)
    (h4 : t4 "sign" (.enveloped ⟨S, r4⟩) = .ok (.error e4))
    (t5 : Transport SignRequest SignWithTransactionDataResult)
    (r5 : SignRequest) (e5 : SignError)
    (h5 : t5 "sign_with_transaction_data" (.enveloped ⟨S, r5⟩) =
      .ok (.error e5)) :
    (c.sync t1 r1).1.result = .ok (.ok (.error e1)) ∧
    (c.sbt_sync t2 r2).1.result = .ok (.ok (.error e2)) ∧
    (c.initial_sync t3 r3).1.result = .ok (.ok (.error e3)) ∧
    (c.sign t4 r4).1.result = .ok (.ok (.error e4)) ∧
    (c.sign_with_transaction_data t5 r5).1.result =
      .ok (.ok (.error e5)) := by
  obtain ⟨b, net⟩ := c
  change net = some S at h
  subst h
  exact ⟨congrArg Except.ok h1, congrArg Except.ok h2, congrArg Except.ok h3,
    congrArg Except.ok h4, congrArg Except.ok h5⟩

/-- Witness for C5: a server reply embedding a sign error on the
combined sign call reaches the caller in the success channel. -/
theorem C5_domain_error_channel_witness :
    clientMain.network = some Network.MainNet ∧
    tSwtdDomErr "sign_with_transaction_data"
      (.enveloped ⟨Network.MainNet, ⟨1⟩⟩) = .ok (.error ⟨9⟩) ∧
    (clientMain.sign_with_transaction_data tSwtdDomErr ⟨1⟩).1.result =
      .ok (.ok (.error ⟨9⟩)) :=
  ⟨rfl, rfl,
    (C5_domain_error_channel clientMain Network.MainNet rfl
      tSyncDomErr ⟨1⟩ ⟨9⟩ rfl tSyncDomErr ⟨1⟩ ⟨9⟩ rfl
      tInitDomErr ⟨1⟩ ⟨9⟩ rfl tSignDomErr ⟨1⟩ ⟨9⟩ rfl
      tSwtdDomErr ⟨1⟩ ⟨9⟩ rfl).2.2.2.2⟩

end MantaSigner

namespace MantaSigner

/-- C6: every operation is a single `post_request`, so for every
transport-layer failure the failure value is propagated unchanged as
the failure variant of the transport-level result, and exactly one
transport attempt is made per call, with no retry or recovery. -/
theorem C6_transport_error_propagated {T R : Type} (c : Client)
    (S : Network) (h : c.network = some S) (t : Transport T R)
    (command : String) (r : T) (te : Error)
    (hte : t command (.enveloped ⟨S, r⟩) = .error te) :
    (c.post_request t command r).result = .ok (.error te) ∧
    (c.post_request t command r).calls.length = 1 := by
  obtain ⟨b, net⟩ := c
  change net = some S at h
  subst h
  exact ⟨congrArg Except.ok hte, rfl⟩

/-- Witness for C6: a failing transport on a concrete `sign` call, with
the error passed through unchanged after exactly one attempt. -/
theorem C6_transport_error_propagated_witness :
    clientMain.network = some Network.MainNet ∧
    tFail SignRequest SignResult "sign"
      (.enveloped ⟨Network.MainNet, ⟨1⟩⟩) =
      .error ⟨"connection refused"⟩ ∧
    (clientMain.post_request (tFail SignRequest SignResult) "sign"
        (⟨1⟩ : SignRequest)).result =
      .ok (.error ⟨"connection refused"⟩) ∧
    (clientMain.post_request (tFail SignRequest SignResult) "sign"
        (⟨1⟩ : SignRequest)).calls.length = 1 :=
  ⟨rfl, rfl,
    (C6_transport_error_propagated clientMain Network.MainNet rfl
      (tFail SignRequest SignResult) "sign" ⟨1⟩
      ⟨"connection refused"⟩ rfl).1,
    (C6_transport_error_propagated clientMain Network.MainNet rfl
      (tFail SignRequest SignResult) "sign" ⟨1⟩
      ⟨"connection refused"⟩ rfl).2⟩

/-- C7: construction on a well-formed address yields a client with no
network selector set; on a malformed address it yields a construction
error; in both cases no transport oracle is involved, so no network
activity occurs. -/
theorem C7_construction (u : String) :
    (urlWellFormed u = true → Client.new u = .ok ⟨⟨u⟩, none⟩) ∧
    (urlWellFormed u = false →
      Client.new u = .error ⟨"builder error: malformed url"⟩) := by
  constructor
  · intro h
    simp only [Client.new, KnownUrlClient.new]
    rw [h]
    simp
  · intro h
    simp only [Client.new, KnownUrlClient.new]
    rw [h]
    simp

/-- Witness for C7: construction at a well-formed and at a malformed
concrete address. -/
theorem C7_construction_witness :
    urlWellFormed "https://signer.example" = true ∧
    Client.new "https://signer.example" =
      .ok ⟨⟨"https://signer.example"⟩, none⟩ ∧
    urlWellFormed "signer.example" = false ∧
    Client.new "signer.example" =
      .error ⟨"builder error: malformed url"⟩ :=
  ⟨by decide, (C7_construction "https://signer.example").1 (by decide),
    by decide, (C7_construction "signer.example").2 (by decide)⟩

/-- C8: `set_network` returns no value, replaces exactly the network
selector, leaves the bound transport handle unchanged, and does not
change the selector captured by a wrap performed on the prior state,
while wraps on the updated state observe the new argument. -/
theorem C8_set_network_frame (c : Client) (n : Option Network)
    (r : SignRequest) (S : Network) :
    (c.set_network n).1 = () ∧
    (c.set_network n).2.network = n ∧
    (c.set_network n).2.base = c.base ∧
    (c.network = some S → c.wrap_request r = .ok ⟨S, r⟩) ∧
    ((c.set_network n).2.wrap_request r =
      match n with
      | some m => .ok ⟨m, r⟩
      | none => .error (.missingNetwork
          "Unable to wrap request, missing network.")) := by
  refine ⟨rfl, rfl, rfl, ?_, rfl⟩
  intro h
  obtain ⟨b, net⟩ := c
  change net = some S at h
  subst h
  rfl

/-- Witness for C8: clearing the selector on the MainNet client keeps
the base handle and the previously wrapped envelope intact. -/
theorem C8_set_network_frame_witness :
    (clientMain.set_network none).1 = () ∧
    (clientMain.set_network none).2.network = none ∧
    (clientMain.set_network none).2.base = clientMain.base ∧
    clientMain.network = some Network.MainNet ∧
    clientMain.wrap_request (⟨1⟩ : SignRequest) =
      .ok ⟨Network.MainNet, ⟨1⟩⟩ :=
  ⟨(C8_set_network_frame clientMain none ⟨1⟩ Network.MainNet).1,
    (C8_set_network_frame clientMain none ⟨1⟩ Network.MainNet).2.1,
    (C8_set_network_frame clientMain none ⟨1⟩ Network.MainNet).2.2.1,
    rfl,
    (C8_set_network_frame clientMain none ⟨1⟩ Network.MainNet).2.2.2.1 rfl⟩

/-- C9: every one of the nine connection operations returns the client
state unchanged: neither the network selector nor the bound transport
handle is modified by any call, so the client holds no per-request
state. -/
theorem C9_operations_preserve_state (c : Client)
    (t1 : Transport SyncRequest SyncResult) (r1 : SyncRequest)
    (t2 : Transport SyncRequest SyncResult) (r2 : SyncRequest)
    (t3 : Transport InitialSyncRequest SyncResult) (r3 : InitialSyncRequest)
    (t4 : Transport SignRequest SignResult) (r4 : SignRequest)
    (t5 : Transport GetRequest (Option Address))
    (t6 : Transport TransactionDataRequest TransactionDataResponse)
    (r6 : TransactionDataRequest)
    (t7 : Transport IdentityRequest IdentityResponse) (r7 : IdentityRequest)
    (t8 : Transport SignRequest SignWithTransactionDataResult)
    (r8 : SignRequest)
    (t9 : Transport GetRequest Parameters) :
    (c.sync t1 r1).2 = c ∧
    (c.sbt_sync t2 r2).2 = c ∧
    (c.initial_sync t3 r3).2 = c ∧
    (c.sign t4 r4).2 = c ∧
    (c.address t5).2 = c ∧
    (c.transaction_data t6 r6).2 = c ∧
    (c.identity_proof t7 r7).2 = c ∧
    (c.sign_with_transaction_data t8 r8).2 = c ∧
    (c.transfer_parameters t9).2 = c :=
  ⟨rfl, rfl, rfl, rfl, rfl, rfl, rfl, rfl, rfl⟩

/-- C10: every operation routes through the unconditional envelope
wrap, so with no selector configured all nine operations abort with
the missing-network fault and make zero transport calls. -/
theorem C10_all_operations_require_network (c : Client)
    (h : c.network = none)
    (t1 : Transport SyncRequest SyncResult) (r1 : SyncRequest)
    (t2 : Transport SyncRequest SyncResult) (r2 : SyncRequest)
    (t3 : Transport InitialSyncRequest SyncResult) (r3 : InitialSyncRequest)
    (t4 : Transport SignRequest SignResult) (r4 : SignRequest)
    (t5 : Transport GetRequest (Option Address))
    (t6 : Transport TransactionDataRequest TransactionDataResponse)
    (r6 : TransactionDataRequest)
    (t7 : Transport IdentityRequest IdentityResponse) (r7 : IdentityRequest)
    (t8 : Transport SignRequest SignWithTransactionDataResult)
    (r8 : SignRequest)
    (t9 : Transport GetRequest Parameters) :
    (c.sync t1 r1).1 =
      ⟨[], .error (.missingNetwork
        "Unable to wrap request, missing network.")⟩ ∧
    (c.sbt_sync t2 r2).1 =
      ⟨[], .error (.missingNetwork
        "Unable to wrap request, missing network.")⟩ ∧
    (c.initial_sync t3 r3).1 =
      ⟨[], .error (.missingNetwork
        "Unable to wrap request, missing network.")⟩ ∧
    (c.sign t4 r4).1 =
      ⟨[], .error (.missingNetwork
        "Unable to wrap request, missing network.")⟩ ∧
    (c.address t5).1 =
      ⟨[], .error (.missingNetwork
        "Unable to wrap request, missing network.")⟩ ∧
    (c.transaction_data t6 r6).1 =
      ⟨[], .error (.missingNetwork
        "Unable to wrap request, missing network.")⟩ ∧
    (c.identity_proof t7 r7).1 =
      ⟨[], .error (.missingNetwork
        "Unable to wrap request, missing network.")⟩ ∧
    (c.sign_with_transaction_data t8 r8).1 =
      ⟨[], .error (.missingNetwork
        "Unable to wrap request, missing network.")⟩ ∧
    (c.transfer_parameters t9).1 =
      ⟨[], .error (.missingNetwork
        "Unable to wrap request, missing network.")⟩ := by
  obtain ⟨b, net⟩ := c
  change net = none at h
  subst h
  exact ⟨rfl, rfl, rfl, rfl, rfl, rfl, rfl, rfl, rfl⟩

/-- Witness for C10: the selector-less client aborting the no-payload
`address` and `transfer_parameters` operations. -/
theorem C10_all_operations_require_network_witness :
    clientNoNet.network = none ∧
    (clientNoNet.address tAddrOk).1 =
      ⟨[], .error (.missingNetwork
        "Unable to wrap request, missing network.")⟩ ∧
    (clientNoNet.transfer_parameters tParamsOk).1 =
      ⟨[], .error (.missingNetwork
        "Unable to wrap request, missing network.")⟩ :=
  ⟨rfl,
    (C10_all_operations_require_network clientNoNet rfl tSyncOk ⟨1⟩
      tSyncOk ⟨1⟩ tInitOk ⟨1⟩ tSignOk ⟨1⟩ tAddrOk tTxdOk ⟨1⟩
      tIdentOk ⟨1⟩ tSwtdOk ⟨1⟩ tParamsOk).2.2.2.2.1,
    (C10_all_operations_require_network clientNoNet rfl tSyncOk ⟨1⟩
      tSyncOk ⟨1⟩ tInitOk ⟨1⟩ tSignOk ⟨1⟩ tAddrOk tTxdOk ⟨1⟩
      tIdentOk ⟨1⟩ tSwtdOk ⟨1⟩ tParamsOk).2.2.2.2.2.2.2.2⟩

end MantaSigner
